import Mathlib

/-!
Shallow embedding of the `Search` component in
`src/vectara-docusaurus-search/src/components/search/SearchInput.tsx`.

The component is a single-threaded, event-driven React component.  Its
mutable variables (React state hooks and refs) are collected in
`SearchState`.  Each UI event handler is translated as a function from
state to a pair of a new state and a list of externally observable
`Output`s (network calls, navigations, escaped promise rejections).

The `async` function `sendSearchQuery` is split at its single `await`
point into a synchronous prefix (`sendSearchQueryStart`, everything
before the `await fetchSearchResults(query)`) and a resumption
(`sendSearchQueryResume`, everything after the `await`), with the
captured local `searchId` passed explicitly.  The outcome of the fetch
is an `Except`: `Except.ok results` for a resolved promise and
`Except.error ()` for a rejected one.

Event-loop semantics: events (keystrokes, debounce firings, promise
resolutions) are delivered one at a time; each handler runs atomically
against the current state, which matches the single-threaded JavaScript
event loop with suspension only at the `await` point.
-/

namespace VectaraSearch

/-- Modelled from the spec: `DeserializedSearchResult` is declared in
`types.ts`, which is not among the sources; the spec (§3) gives the shape
`\x7burl, snippet:\x7bpre,text,post\x7d, score?\x7d`.  The optional numeric
score is never consulted by the control logic embedded here and is omitted. -/
structure Snippet where
  pre : String
  text : String
  post : String
deriving DecidableEq

structure DeserializedSearchResult where
  url : String
  snippet : Snippet
deriving DecidableEq

/-- Modelled from the spec: the history store behind `useSearchHistory`
(`useSearchHistory.ts` is not among the sources).  Spec §4.3: "Backed by a
per-namespace capped list; inserting beyond capacity evicts oldest."
The new query is appended at the newest end; when the list exceeds
`historySize` entries, oldest entries are dropped from the front. -/
def addPreviousSearch (historySize : Nat) (history : List String)
    (query : String) : List String :=
  let h := history ++ [query]
  if historySize < h.length then h.drop (h.length - historySize) else h

/-- Modelled from the spec (§4.3): `getPreviousSearches(): string[]`
returns the stored per-namespace history. -/
def getPreviousSearches (history : List String) : List String :=
  history

/-- The namespace key built by `Search`:
`getUuid(\x60${customerId}-${corpusId}-${apiKey}\x60)` — the template
literal joins the three credentials with `-`. -/
def searchNamespaceKey (customerId corpusId apiKey : String) : String :=
  customerId ++ "-" ++ corpusId ++ "-" ++ apiKey

/-- The per-widget namespace identifier `searchId`.  The hash `getUuid`
comes from the external `uuid-by-string` package; per spec §9 it is "any
stable, collision-resistant string hash", so it is kept as a parameter:
a stable hash is exactly a function `String → String`. -/
def searchId (getUuid : String → String)
    (customerId corpusId apiKey : String) : String :=
  getUuid (searchNamespaceKey customerId corpusId apiKey)

/-- The `historySize` prop resolution: the destructuring default
`historySize = 10` in `Search` applies when the prop is omitted. -/
def historySizeOrDefault (historySize : Option Nat) : Nat :=
  historySize.getD 10

/-- The keys the `onKeyDown` handler distinguishes. -/
inductive Key where
  | enter
  | arrowDown
  | arrowUp
  | other (name : String)
deriving DecidableEq

/-- Externally observable effects of a handler step. -/
inductive Output where
  /-- `fetchSearchResults(query)` was invoked; `id` is the captured
  `searchId` (the value of `searchCount` at dispatch). -/
  | networkCall (id : Nat) (query : String)
  /-- `window.open(url, "_self")`. -/
  | navigate (url : String)
  /-- A promise rejected and no handler was attached: `sendSearchQuery`
  has no try/catch around its `await`, and both call sites
  (`onKeyDown`'s Enter branch and the debounced wrapper) discard the
  returned promise, so the rejection escapes uncaught. -/
  | rejectionEscaped
  /-- A JavaScript `TypeError` from reading `.url` of `undefined`
  (indexing `searchResults` out of bounds). -/
  | jsError
deriving DecidableEq

/-- The component's mutable variables: `searchResults` and
`selectedResultIndex` (React state), `isOpen` (React state),
`queryRef.current` (`queryText`), `searchCount.current`, and the
per-namespace history list held by `useSearchHistory`. -/
structure SearchState where
  searchResults : List DeserializedSearchResult
  selectedResultIndex : Option Nat
  isOpen : Bool
  queryText : String
  searchCount : Nat
  history : List String
deriving DecidableEq

/-- The component's state right after mount: `useState([])`,
`useState(null)`, `useState(false)`, `useRef("")`, `useRef(0)`, and an
empty history. -/
def initialState : SearchState :=
  { searchResults := []
    selectedResultIndex := none
    isOpen := false
    queryText := ""
    searchCount := 0
    history := [] }

/-- The synchronous prefix of `sendSearchQuery(query)`: the empty-query
guard, `const searchId = ++searchCount.current`, `addPreviousSearch(query)`,
and the dispatch of `fetchSearchResults(query)`. -/
def sendSearchQueryStart (historySize : Nat) (s : SearchState)
    (query : String) : SearchState × List Output :=
  if query.length = 0 then
    (s, [])
  else
    ({ s with
        searchCount := s.searchCount + 1
        history := addPreviousSearch historySize s.history query },
     [Output.networkCall (s.searchCount + 1) query])

/-- The resumption of `sendSearchQuery` after `await fetchSearchResults`:
on resolution, the staleness check `searchId === searchCount.current`
gates applying the results; on rejection, the `await` throws and — with
no surrounding try/catch and the promise discarded by every caller — the
rejection escapes, leaving the state untouched. -/
def sendSearchQueryResume (s : SearchState) (id : Nat)
    (outcome : Except Unit (List DeserializedSearchResult)) :
    SearchState × List Output :=
  match outcome with
  | Except.error _ => (s, [Output.rejectionEscaped])
  | Except.ok results =>
      if id = s.searchCount then
        ({ s with searchResults := results, selectedResultIndex := none }, [])
      else
        (s, [])

/-- The `if (key === "Enter")` block of `onKeyDown`, which runs before
the empty-results guard.  With a selection it opens
`searchResults[selectedResultIndex].url`; with none it calls
`sendSearchQuery(queryRef.current)` (synchronous prefix only — the rest
of the handler does not wait for the fetch). -/
def enterStep (historySize : Nat) (s : SearchState) (k : Key) :
    SearchState × List Output :=
  match k with
  | Key.enter =>
      match s.selectedResultIndex with
      | some i =>
          match s.searchResults.get? i with
          | some r => (s, [Output.navigate r.url])
          | none => (s, [Output.jsError])
      | none => sendSearchQueryStart historySize s s.queryText
  | _ => (s, [])

/-- The functional updater passed to `setSelectedResultIndex` for
ArrowDown: `prev === null || prev === len - 1 ? 0 : prev + 1`. -/
def arrowDownNext (len : Nat) : Option Nat → Nat
  | none => 0
  | some i => if i = len - 1 then 0 else i + 1

/-- The functional updater passed to `setSelectedResultIndex` for
ArrowUp: `prev === null || prev === 0 ? len - 1 : prev - 1`. -/
def arrowUpNext (len : Nat) : Option Nat → Nat
  | none => len - 1
  | some i => if i = 0 then len - 1 else i - 1

/-- The `onKeyDown` handler: the Enter block first, then the early
return `if (searchResults.length === 0) return;`, then the ArrowDown
and ArrowUp blocks (`searchResults.length` is the handler's closure
value, i.e. the length before this event). -/
def onKeyDown (historySize : Nat) (s : SearchState) (k : Key) :
    SearchState × List Output :=
  let res := enterStep historySize s k
  if s.searchResults.length = 0 then
    res
  else
    match k with
    | Key.arrowDown =>
        let j := arrowDownNext s.searchResults.length res.1.selectedResultIndex
        ({ res.1 with selectedResultIndex := some j }, res.2)
    | Key.arrowUp =>
        let j := arrowUpNext s.searchResults.length res.1.selectedResultIndex
        ({ res.1 with selectedResultIndex := some j }, res.2)
    | _ => res

/-- `resetResults`: empties the result list and clears the selection. -/
def resetResults (s : SearchState) : SearchState :=
  { s with searchResults := [], selectedResultIndex := none }

/-- The `onChange` handler: stores the text in `queryRef.current`,
resets results when the text is empty, and schedules
`debouncedSendSearchQuery(currentQuery)` — the debounce firing is
delivered later as its own `Event.submit`. -/
def onChange (s : SearchState) (text : String) : SearchState :=
  let s1 := { s with queryText := text }
  if text.length = 0 then resetResults s1 else s1

/-- `closeModalAndResetResults`: `setIsOpen(false)` then `resetResults()`.
Note that `queryRef.current` is not touched. -/
def closeModalAndResetResults (s : SearchState) : SearchState :=
  resetResults { s with isOpen := false }

/-- The events the component reacts to.  `submit` is an invocation of
`sendSearchQuery` (a debounce firing); `arrive` is the resolution or
rejection of the fetch dispatched with captured counter value `id`;
`openModal` covers both the button click and the Ctrl+K listener. -/
inductive Event where
  | submit (query : String)
  | keyDown (key : Key)
  | arrive (id : Nat) (outcome : Except Unit (List DeserializedSearchResult))
  | change (text : String)
  | closeModal
  | openModal

/-- One atomic event-loop step of the component. -/
def stepE (historySize : Nat) (s : SearchState) (e : Event) :
    SearchState × List Output :=
  match e with
  | Event.submit q => sendSearchQueryStart historySize s q
  | Event.keyDown k => onKeyDown historySize s k
  | Event.arrive id outcome => sendSearchQueryResume s id outcome
  | Event.change t => (onChange s t, [])
  | Event.closeModal => (closeModalAndResetResults s, [])
  | Event.openModal => ({ s with isOpen := true }, [])

/-- Run a sequence of events from a state. -/
def run (historySize : Nat) (s : SearchState) (es : List Event) : SearchState :=
  es.foldl (fun s e => (stepE historySize s e).1) s

/-- A state is reachable when some event sequence produces it from the
mount state. -/
def Reachable (historySize : Nat) (s : SearchState) : Prop :=
  ∃ es : List Event, run historySize initialState es = s

/-! ### Basic unfolding lemmas -/

@[simp]
theorem run_nil (cap : Nat) (s : SearchState) : run cap s [] = s :=
  rfl

@[simp]
theorem run_cons (cap : Nat) (s : SearchState) (e : Event) (es : List Event) :
    run cap s (e :: es) = run cap (stepE cap s e).1 es :=
  rfl

@[simp]
theorem sendSearchQueryStart_searchResults (cap : Nat) (s : SearchState)
    (q : String) : (sendSearchQueryStart cap s q).1.searchResults = s.searchResults := by
  unfold sendSearchQueryStart
  split <;> rfl

@[simp]
theorem sendSearchQueryStart_selectedResultIndex (cap : Nat) (s : SearchState)
    (q : String) :
    (sendSearchQueryStart cap s q).1.selectedResultIndex = s.selectedResultIndex := by
  unfold sendSearchQueryStart
  split <;> rfl

@[simp]
theorem sendSearchQueryStart_queryText (cap : Nat) (s : SearchState)
    (q : String) : (sendSearchQueryStart cap s q).1.queryText = s.queryText := by
  unfold sendSearchQueryStart
  split <;> rfl

@[simp]
theorem enterStep_searchResults (cap : Nat) (s : SearchState) (k : Key) :
    (enterStep cap s k).1.searchResults = s.searchResults := by
  unfold enterStep
  cases k with
  | enter =>
      dsimp only
      split
      · split <;> rfl
      · simp
  | arrowDown => rfl
  | arrowUp => rfl
  | other n => rfl

@[simp]
theorem enterStep_selectedResultIndex (cap : Nat) (s : SearchState) (k : Key) :
    (enterStep cap s k).1.selectedResultIndex = s.selectedResultIndex := by
  unfold enterStep
  cases k with
  | enter =>
      dsimp only
      split
      · split <;> rfl
      · simp
  | arrowDown => rfl
  | arrowUp => rfl
  | other n => rfl

/-- On a rejected fetch the resumption leaves the state entirely
unchanged and reports the escaped rejection. -/
theorem sendSearchQueryResume_error (s : SearchState) (id : Nat) :
    sendSearchQueryResume s id (Except.error ()) = (s, [Output.rejectionEscaped]) :=
  rfl

/-- A resolved fetch whose captured counter is stale leaves the state
entirely unchanged. -/
theorem sendSearchQueryResume_stale (s : SearchState) (id : Nat)
    (results : List DeserializedSearchResult) (h : id ≠ s.searchCount) :
    sendSearchQueryResume s id (Except.ok results) = (s, []) := by
  unfold sendSearchQueryResume
  simp [h]

/-- A resolved fetch whose captured counter is current applies the
results and clears the selection. -/
theorem sendSearchQueryResume_fresh (s : SearchState) (id : Nat)
    (results : List DeserializedSearchResult) (h : id = s.searchCount) :
    sendSearchQueryResume s id (Except.ok results)
      = ({ s with searchResults := results, selectedResultIndex := none }, []) := by
  unfold sendSearchQueryResume
  simp [h]

/-! ### Monotonicity of the sequence counter -/

theorem searchCount_le_start (cap : Nat) (s : SearchState) (q : String) :
    s.searchCount ≤ (sendSearchQueryStart cap s q).1.searchCount := by
  unfold sendSearchQueryStart
  split
  · exact Nat.le_refl _
  · exact Nat.le_succ _

theorem searchCount_le_enterStep (cap : Nat) (s : SearchState) (k : Key) :
    s.searchCount ≤ (enterStep cap s k).1.searchCount := by
  unfold enterStep
  cases k with
  | enter =>
      dsimp only
      split
      · split <;> exact Nat.le_refl _
      · exact searchCount_le_start cap s s.queryText
  | arrowDown => exact Nat.le_refl _
  | arrowUp => exact Nat.le_refl _
  | other n => exact Nat.le_refl _

theorem searchCount_le_onKeyDown (cap : Nat) (s : SearchState) (k : Key) :
    s.searchCount ≤ (onKeyDown cap s k).1.searchCount := by
  unfold onKeyDown
  split
  · exact searchCount_le_enterStep cap s k
  · cases k with
    | enter => exact searchCount_le_enterStep cap s Key.enter
    | arrowDown => exact searchCount_le_enterStep cap s Key.arrowDown
    | arrowUp => exact searchCount_le_enterStep cap s Key.arrowUp
    | other n => exact searchCount_le_enterStep cap s (Key.other n)

theorem searchCount_resume (s : SearchState) (id : Nat)
    (outcome : Except Unit (List DeserializedSearchResult)) :
    (sendSearchQueryResume s id outcome).1.searchCount = s.searchCount := by
  unfold sendSearchQueryResume
  cases outcome with
  | error e => rfl
  | ok results => dsimp only; split <;> rfl

theorem searchCount_le_stepE (cap : Nat) (s : SearchState) (e : Event) :
    s.searchCount ≤ (stepE cap s e).1.searchCount := by
  cases e with
  | submit q => exact searchCount_le_start cap s q
  | keyDown k => exact searchCount_le_onKeyDown cap s k
  | arrive id outcome => exact (searchCount_resume s id outcome).ge
  | change t =>
      show s.searchCount ≤ (onChange s t).searchCount
      unfold onChange resetResults
      split <;> exact Nat.le_refl _
  | closeModal => exact Nat.le_refl _
  | openModal => exact Nat.le_refl _

theorem searchCount_le_run (cap : Nat) (es : List Event) (s : SearchState) :
    s.searchCount ≤ (run cap s es).searchCount := by
  induction es generalizing s with
  | nil => exact Nat.le_refl _
  | cons e es ih =>
      exact Nat.le_trans (searchCount_le_stepE cap s e) (by simpa using ih (stepE cap s e).1)

/-! ### The selection invariant -/

/-- The selection is `null` or a valid index into the current results. -/
def SelInv (s : SearchState) : Prop :=
  ∀ i, s.selectedResultIndex = some i → i < s.searchResults.length

theorem arrowDownNext_lt (len : Nat) (prev : Option Nat) (hlen : len ≠ 0)
    (hprev : ∀ i, prev = some i → i < len) : arrowDownNext len prev < len := by
  cases prev with
  | none => simpa [arrowDownNext] using Nat.pos_of_ne_zero hlen
  | some i =>
      have hi := hprev i rfl
      simp only [arrowDownNext]
      split <;> omega

theorem arrowUpNext_lt (len : Nat) (prev : Option Nat) (hlen : len ≠ 0)
    (hprev : ∀ i, prev = some i → i < len) : arrowUpNext len prev < len := by
  cases prev with
  | none => simp only [arrowUpNext]; omega
  | some i =>
      have hi := hprev i rfl
      simp only [arrowUpNext]
      split <;> omega

theorem SelInv_onKeyDown (cap : Nat) (s : SearchState) (k : Key)
    (h : SelInv s) : SelInv (onKeyDown cap s k).1 := by
  unfold onKeyDown
  split
  · intro i hi
    rw [enterStep_selectedResultIndex] at hi
    rw [enterStep_searchResults]
    exact h i hi
  · rename_i hlen
    cases k with
    | enter =>
        intro i hi
        rw [enterStep_selectedResultIndex] at hi
        rw [enterStep_searchResults]
        exact h i hi
    | arrowDown =>
        intro i hi
        simp only [enterStep_selectedResultIndex] at hi
        simp only [Option.some.injEq] at hi
        subst hi
        simp only [enterStep_searchResults]
        exact arrowDownNext_lt _ _ hlen (by simpa [enterStep_selectedResultIndex] using h)
    | arrowUp =>
        intro i hi
        simp only [enterStep_selectedResultIndex] at hi
        simp only [Option.some.injEq] at hi
        subst hi
        simp only [enterStep_searchResults]
        exact arrowUpNext_lt _ _ hlen (by simpa [enterStep_selectedResultIndex] using h)
    | other n =>
        intro i hi
        rw [enterStep_selectedResultIndex] at hi
        rw [enterStep_searchResults]
        exact h i hi

theorem SelInv_stepE (cap : Nat) (s : SearchState) (e : Event)
    (h : SelInv s) : SelInv (stepE cap s e).1 := by
  cases e with
  | submit q =>
      intro i hi
      rw [show (stepE cap s (Event.submit q)).1 = (sendSearchQueryStart cap s q).1 from rfl] at hi ⊢
      rw [sendSearchQueryStart_selectedResultIndex] at hi
      rw [sendSearchQueryStart_searchResults]
      exact h i hi
  | keyDown k => exact SelInv_onKeyDown cap s k h
  | arrive id outcome =>
      show SelInv (sendSearchQueryResume s id outcome).1
      unfold sendSearchQueryResume
      cases outcome with
      | error e => exact h
      | ok results =>
          dsimp only
          split
          · intro i hi
            simp at hi
          · exact h
  | change t =>
      show SelInv (onChange s t)
      unfold onChange resetResults
      split
      · intro i hi
        simp at hi
      · intro i hi
        exact h i hi
  | closeModal =>
      show SelInv (closeModalAndResetResults s)
      unfold closeModalAndResetResults resetResults
      intro i hi
      simp at hi
  | openModal =>
      intro i hi
      exact h i hi

theorem SelInv_run (cap : Nat) (es : List Event) (s : SearchState)
    (h : SelInv s) : SelInv (run cap s es) := by
  induction es generalizing s with
  | nil => exact h
  | cons e es ih =>
      simpa using ih (stepE cap s e).1 (SelInv_stepE cap s e h)

theorem SelInv_initialState : SelInv initialState := by
  intro i hi
  simp [initialState] at hi

/-! ### Further helper lemmas used by the claim theorems -/

@[simp]
theorem onKeyDown_searchResults (cap : Nat) (s : SearchState) (k : Key) :
    (onKeyDown cap s k).1.searchResults = s.searchResults := by
  unfold onKeyDown
  split
  · exact enterStep_searchResults cap s k
  · cases k <;> simp

theorem onKeyDown_arrowDown_sel (cap : Nat) (s : SearchState)
    (h : s.searchResults.length ≠ 0) :
    (onKeyDown cap s Key.arrowDown).1.selectedResultIndex
      = some (arrowDownNext s.searchResults.length s.selectedResultIndex)
    ∧ (onKeyDown cap s Key.arrowDown).2 = [] := by
  unfold onKeyDown enterStep
  simp [h]

theorem onKeyDown_arrowUp_sel (cap : Nat) (s : SearchState)
    (h : s.searchResults.length ≠ 0) :
    (onKeyDown cap s Key.arrowUp).1.selectedResultIndex
      = some (arrowUpNext s.searchResults.length s.selectedResultIndex)
    ∧ (onKeyDown cap s Key.arrowUp).2 = [] := by
  unfold onKeyDown enterStep
  simp [h]

theorem searchCount_start_of_ne (cap : Nat) (s : SearchState) (q : String)
    (h : q.length ≠ 0) :
    (sendSearchQueryStart cap s q).1.searchCount = s.searchCount + 1 := by
  unfold sendSearchQueryStart
  simp [h]

theorem sendSearchQueryStart_out (cap : Nat) (s : SearchState) (q : String)
    (h : q.length ≠ 0) :
    (sendSearchQueryStart cap s q).2 = [Output.networkCall (s.searchCount + 1) q] := by
  unfold sendSearchQueryStart
  simp [h]

/-- The state after submitting `q1` and then `q2`. -/
def afterTwoSubmits (cap : Nat) (s0 : SearchState) (q1 q2 : String) : SearchState :=
  (sendSearchQueryStart cap (sendSearchQueryStart cap s0 q1).1 q2).1

theorem afterTwoSubmits_searchCount (cap : Nat) (s0 : SearchState)
    (q1 q2 : String) (h1 : q1.length ≠ 0) (h2 : q2.length ≠ 0) :
    (afterTwoSubmits cap s0 q1 q2).searchCount = s0.searchCount + 2 := by
  unfold afterTwoSubmits
  rw [searchCount_start_of_ne cap _ q2 h2, searchCount_start_of_ne cap s0 q1 h1]

/-- A concrete result used to instantiate theorems with hypotheses. -/
def sampleResult : DeserializedSearchResult :=
  { url := "/docs/result", snippet := { pre := "pre", text := "match", post := "post" } }

/-! ### The claims -/

/-- Claim C1: for non-empty queries Q1 then Q2 with Q2 submitted before
Q1's fetch resolves, Q1 is dispatched with counter value `c+1` and Q2
with `c+2`; thereafter Q1's response is discarded by the staleness check
in every later state (the counter only grows), and running the two
arrivals in either order leaves Q2's results as the displayed results. -/
theorem C1_sequence_gating (cap : Nat) (s0 : SearchState) (q1 q2 : String)
    (h1 : q1.length ≠ 0) (h2 : q2.length ≠ 0) :
    (sendSearchQueryStart cap s0 q1).2
        = [Output.networkCall (s0.searchCount + 1) q1]
    ∧ (sendSearchQueryStart cap (sendSearchQueryStart cap s0 q1).1 q2).2
        = [Output.networkCall (s0.searchCount + 2) q2]
    ∧ (∀ es r1,
        sendSearchQueryResume (run cap (afterTwoSubmits cap s0 q1 q2) es)
            (s0.searchCount + 1) (Except.ok r1)
          = (run cap (afterTwoSubmits cap s0 q1 q2) es, []))
    ∧ (∀ r1 r2,
        (run cap (afterTwoSubmits cap s0 q1 q2)
            [Event.arrive (s0.searchCount + 1) (Except.ok r1),
             Event.arrive (s0.searchCount + 2) (Except.ok r2)]).searchResults = r2
        ∧ (run cap (afterTwoSubmits cap s0 q1 q2)
            [Event.arrive (s0.searchCount + 2) (Except.ok r2),
             Event.arrive (s0.searchCount + 1) (Except.ok r1)]).searchResults = r2) := by
  have hc2 := afterTwoSubmits_searchCount cap s0 q1 q2 h1 h2
  refine ⟨?_, ?_, ?_, ?_⟩
  · exact sendSearchQueryStart_out cap s0 q1 h1
  · rw [sendSearchQueryStart_out cap _ q2 h2, searchCount_start_of_ne cap s0 q1 h1]
  · intro es r1
    have hle : (afterTwoSubmits cap s0 q1 q2).searchCount
        ≤ (run cap (afterTwoSubmits cap s0 q1 q2) es).searchCount :=
      searchCount_le_run cap es _
    exact sendSearchQueryResume_stale _ _ _ (by omega)
  · intro r1 r2
    constructor
    · show (stepE cap (stepE cap (afterTwoSubmits cap s0 q1 q2)
          (Event.arrive (s0.searchCount + 1) (Except.ok r1))).1
          (Event.arrive (s0.searchCount + 2) (Except.ok r2))).1.searchResults = r2
      rw [show stepE cap (afterTwoSubmits cap s0 q1 q2)
            (Event.arrive (s0.searchCount + 1) (Except.ok r1))
          = sendSearchQueryResume (afterTwoSubmits cap s0 q1 q2)
              (s0.searchCount + 1) (Except.ok r1) from rfl]
      rw [sendSearchQueryResume_stale _ _ _ (by omega)]
      rw [show (stepE cap (afterTwoSubmits cap s0 q1 q2, ([] : List Output)).1
            (Event.arrive (s0.searchCount + 2) (Except.ok r2))).1
          = (sendSearchQueryResume (afterTwoSubmits cap s0 q1 q2)
              (s0.searchCount + 2) (Except.ok r2)).1 from rfl]
      rw [sendSearchQueryResume_fresh _ _ _ (by omega)]
    · show (stepE cap (stepE cap (afterTwoSubmits cap s0 q1 q2)
          (Event.arrive (s0.searchCount + 2) (Except.ok r2))).1
          (Event.arrive (s0.searchCount + 1) (Except.ok r1))).1.searchResults = r2
      rw [show stepE cap (afterTwoSubmits cap s0 q1 q2)
            (Event.arrive (s0.searchCount + 2) (Except.ok r2))
          = sendSearchQueryResume (afterTwoSubmits cap s0 q1 q2)
              (s0.searchCount + 2) (Except.ok r2) from rfl]
      rw [sendSearchQueryResume_fresh _ _ _ (by omega)]
      dsimp only
      rw [show stepE cap { afterTwoSubmits cap s0 q1 q2 with
            searchResults := r2, selectedResultIndex := none }
            (Event.arrive (s0.searchCount + 1) (Except.ok r1))
          = sendSearchQueryResume { afterTwoSubmits cap s0 q1 q2 with
              searchResults := r2, selectedResultIndex := none }
              (s0.searchCount + 1) (Except.ok r1) from rfl]
      rw [sendSearchQueryResume_stale _ _ _ (by simp; omega)]

/-- Claim C1, witness: with `q1 = "a"`, `q2 = "b"` from the mount state,
Q1's results `[sampleResult]` arriving before Q2's empty results still
leaves Q2's results displayed. -/
theorem C1_witness :
    (run 10 (afterTwoSubmits 10 initialState "a" "b")
        [Event.arrive 1 (Except.ok [sampleResult]),
         Event.arrive 2 (Except.ok [])]).searchResults = ([] : List DeserializedSearchResult) := by
  have h := (C1_sequence_gating 10 initialState "a" "b" (by decide) (by decide)).2.2.2
    [sampleResult] []
  exact h.1

/-- Claim C2: calling `sendSearchQuery` with the empty string issues no
network call, adds no history entry, does not increment the sequence
counter, and leaves the whole state — results and selection included —
unchanged. -/
theorem C2_empty_query_noop (cap : Nat) (s : SearchState) :
    sendSearchQueryStart cap s "" = (s, []) :=
  rfl

/-- Claim C3, counterexample: after submitting a query from the mount
state, a rejection of its fetch escapes as an uncaught promise rejection
(`sendSearchQuery` has no try/catch, and every caller discards the
promise), so the claim that the rejection is caught inside the widget is
false. -/
theorem C3_counterexample :
    (sendSearchQueryResume (sendSearchQueryStart 10 initialState "a").1 1
        (Except.error ())).2 = [Output.rejectionEscaped] :=
  rfl

/-- Claim C3 (amended): for every submitted query whose fetch rejects,
the results and selection state — indeed the whole component state — are
left unchanged, so the previously displayed results remain; but the
rejection is not caught inside the widget and escapes as an unhandled
promise rejection. -/
theorem C3_amended_rejection (s : SearchState) (id : Nat) :
    sendSearchQueryResume s id (Except.error ()) = (s, [Output.rejectionEscaped]) :=
  rfl

/-- Claim C4, counterexample: in the reachable state obtained by typing
"hello" (results list empty, no selection), pressing Enter is not a
no-op: the Enter block of `onKeyDown` runs before the empty-results
guard, so a query is submitted — the counter goes from 0 to 1 and a
network call for "hello" is issued. -/
theorem C4_counterexample :
    (run 10 initialState [Event.change "hello"]).searchResults = []
    ∧ (run 10 initialState [Event.change "hello"]).searchCount = 0
    ∧ (onKeyDown 10 (run 10 initialState [Event.change "hello"]) Key.enter).1.searchCount = 1
    ∧ (onKeyDown 10 (run 10 initialState [Event.change "hello"]) Key.enter).2
        = [Output.networkCall 1 "hello"] :=
  ⟨rfl, rfl, rfl, rfl⟩

/-- Claim C4 (amended): whenever the results list is empty, ArrowDown,
ArrowUp and any other non-Enter key are complete no-ops; Enter does not
navigate, but with no selection it submits the current raw query text —
a no-op only when that text is empty. -/
theorem C4_amended_empty_results (cap : Nat) (s : SearchState)
    (h : s.searchResults.length = 0) :
    onKeyDown cap s Key.arrowDown = (s, [])
    ∧ onKeyDown cap s Key.arrowUp = (s, [])
    ∧ (∀ n, onKeyDown cap s (Key.other n) = (s, []))
    ∧ (s.selectedResultIndex = none →
        onKeyDown cap s Key.enter = sendSearchQueryStart cap s s.queryText)
    ∧ (s.selectedResultIndex = none → s.queryText.length = 0 →
        onKeyDown cap s Key.enter = (s, [])) := by
  refine ⟨?_, ?_, ?_, ?_, ?_⟩
  · unfold onKeyDown enterStep
    simp [h]
  · unfold onKeyDown enterStep
    simp [h]
  · intro n
    unfold onKeyDown enterStep
    simp [h]
  · intro hsel
    unfold onKeyDown enterStep
    simp [h, hsel]
  · intro hsel hq
    unfold onKeyDown enterStep sendSearchQueryStart
    simp [h, hsel, hq]

/-- Claim C4, witness: in the state reached by typing "hello", ArrowDown
is a no-op while Enter submits the stored query text. -/
theorem C4_witness :
    onKeyDown 10 (run 10 initialState [Event.change "hello"]) Key.arrowDown
      = (run 10 initialState [Event.change "hello"], [])
    ∧ onKeyDown 10 (run 10 initialState [Event.change "hello"]) Key.enter
      = sendSearchQueryStart 10 (run 10 initialState [Event.change "hello"])
          (run 10 initialState [Event.change "hello"]).queryText := by
  have h := C4_amended_empty_results 10 (run 10 initialState [Event.change "hello"]) rfl
  exact ⟨h.1, h.2.2.2.1 rfl⟩

/-- Claim C5, counterexample: the namespace key joins the credentials
with `-`, so the component-wise distinct triples ("a-b", "c", "k") and
("a", "b-c", "k") produce the same key "a-b-c-k" and hence the same
derived identifier under every hash — the claim that any component-wise
difference yields distinct identifiers is false. -/
theorem C5_counterexample :
    ¬ (∀ getUuid : String → String, ∀ c1 co1 k1 c2 co2 k2 : String,
        (c1, co1, k1) ≠ (c2, co2, k2) →
        searchId getUuid c1 co1 k1 ≠ searchId getUuid c2 co2 k2) := by
  intro h
  exact h id "a-b" "c" "k" "a" "b-c" "k" (by decide) rfl

/-- Claim C5 (amended): two widget instances derive distinct namespace
identifiers whenever their joined key strings
`customerId-corpusId-apiKey` differ and the hash is injective; triples
that differ component-wise but share the joined key (delimiter
ambiguity) collide and share one history namespace. -/
theorem C5_amended_namespace (getUuid : String → String)
    (hinj : Function.Injective getUuid) (c1 co1 k1 c2 co2 k2 : String)
    (hkey : searchNamespaceKey c1 co1 k1 ≠ searchNamespaceKey c2 co2 k2) :
    searchId getUuid c1 co1 k1 ≠ searchId getUuid c2 co2 k2 := by
  intro h
  exact hkey (hinj h)

/-- Claim C5, witness: with the identity as (an injective) stable hash,
fully distinct credentials yield distinct namespace identifiers. -/
theorem C5_witness :
    searchId id "a" "b" "c" ≠ searchId id "x" "y" "z" :=
  C5_amended_namespace id (fun _ _ h => h) "a" "b" "c" "x" "y" "z" (by decide)

/-- Claim C6: in every reachable state the selection is `null` or a
valid index into the current results, and every step that changes the
results array leaves the selection `null`. -/
theorem C6_selection_invariant :
    (∀ cap s, Reachable cap s →
      ∀ i, s.selectedResultIndex = some i → i < s.searchResults.length)
    ∧ (∀ cap s e, (stepE cap s e).1.searchResults ≠ s.searchResults →
        (stepE cap s e).1.selectedResultIndex = none) := by
  constructor
  · rintro cap s ⟨es, rfl⟩
    exact SelInv_run cap es initialState SelInv_initialState
  · intro cap s e hch
    cases e with
    | submit q => exact absurd (sendSearchQueryStart_searchResults cap s q) hch
    | keyDown k => exact absurd (onKeyDown_searchResults cap s k) hch
    | arrive id outcome =>
        revert hch
        show (sendSearchQueryResume s id outcome).1.searchResults ≠ s.searchResults →
          (sendSearchQueryResume s id outcome).1.selectedResultIndex = none
        unfold sendSearchQueryResume
        cases outcome with
        | error e => intro hch; exact absurd rfl hch
        | ok results =>
            dsimp only
            split
            · intro _; rfl
            · intro hch; exact absurd rfl hch
    | change t =>
        revert hch
        show (onChange s t).searchResults ≠ s.searchResults →
          (onChange s t).selectedResultIndex = none
        unfold onChange resetResults
        split
        · intro _; rfl
        · intro hch; exact absurd rfl hch
    | closeModal => rfl
    | openModal => exact absurd rfl hch

/-- Claim C6, witness: after submitting "a", receiving one result and
pressing ArrowDown, the selected index 0 is below the results length;
and applying a fresh response that changes the results clears the
selection. -/
theorem C6_witness :
    0 < (run 10 initialState
        [Event.submit "a", Event.arrive 1 (Except.ok [sampleResult]),
         Event.keyDown Key.arrowDown]).searchResults.length
    ∧ (stepE 10 (run 10 initialState [Event.submit "a"])
        (Event.arrive 1 (Except.ok [sampleResult]))).1.selectedResultIndex = none := by
  constructor
  · exact C6_selection_invariant.1 10
      (run 10 initialState
        [Event.submit "a", Event.arrive 1 (Except.ok [sampleResult]),
         Event.keyDown Key.arrowDown])
      ⟨[Event.submit "a", Event.arrive 1 (Except.ok [sampleResult]),
        Event.keyDown Key.arrowDown], rfl⟩ 0 rfl
  · exact C6_selection_invariant.2 10 (run 10 initialState [Event.submit "a"])
      (Event.arrive 1 (Except.ok [sampleResult])) (by decide)

/-- Claim C7, counterexample: after typing "hello" and closing the
modal, the stored raw query text is still "hello" (not cleared), and an
Enter press after reopening submits that pre-close text — the claim
that closing clears the raw query text is false. -/
theorem C7_counterexample :
    (run 10 initialState [Event.change "hello", Event.closeModal]).queryText = "hello"
    ∧ (onKeyDown 10 (run 10 initialState
          [Event.change "hello", Event.closeModal, Event.openModal]) Key.enter).2
        = [Output.networkCall 1 "hello"] :=
  ⟨rfl, rfl⟩

/-- Claim C7 (amended): `closeModalAndResetResults` closes the modal,
empties the results list and clears the selection, but leaves the stored
raw query text (and the counter and history) untouched. -/
theorem C7_amended_close (s : SearchState) :
    closeModalAndResetResults s
      = { s with isOpen := false, searchResults := [], selectedResultIndex := none }
    ∧ (closeModalAndResetResults s).queryText = s.queryText :=
  ⟨rfl, rfl⟩

/-- Claim C8: with a non-empty results list of length `N`, ArrowDown
maps `null` to 0 and a valid index `i` to `i+1` when `i < N-1`, else
wraps to 0; ArrowUp maps `null` to `N-1` and a valid `i` to `i-1` when
`i > 0`, else wraps to `N-1`. -/
theorem C8_arrow_transitions (cap : Nat) (s : SearchState)
    (hN : s.searchResults.length ≠ 0) :
    (s.selectedResultIndex = none →
      (onKeyDown cap s Key.arrowDown).1.selectedResultIndex = some 0
      ∧ (onKeyDown cap s Key.arrowUp).1.selectedResultIndex
          = some (s.searchResults.length - 1))
    ∧ (∀ i, s.selectedResultIndex = some i → i < s.searchResults.length →
      (onKeyDown cap s Key.arrowDown).1.selectedResultIndex
          = some (if i < s.searchResults.length - 1 then i + 1 else 0)
      ∧ (onKeyDown cap s Key.arrowUp).1.selectedResultIndex
          = some (if 0 < i then i - 1 else s.searchResults.length - 1)) := by
  have hd := (onKeyDown_arrowDown_sel cap s hN).1
  have hu := (onKeyDown_arrowUp_sel cap s hN).1
  constructor
  · intro hnone
    rw [hd, hu, hnone]
    exact ⟨rfl, rfl⟩
  · intro i hsel hi
    rw [hd, hu, hsel]
    simp only [arrowDownNext, arrowUpNext, Option.some.injEq]
    constructor
    · split <;> split <;> omega
    · split <;> split <;> omega

/-- Claim C8, witness: with results `[R0, R1, R2]` and selected index 2,
ArrowDown wraps the selection to 0. -/
theorem C8_witness :
    (onKeyDown 10 { initialState with
        searchResults := [sampleResult, sampleResult, sampleResult],
        selectedResultIndex := some 2 } Key.arrowDown).1.selectedResultIndex = some 0 := by
  have h := (C8_arrow_transitions 10 { initialState with
      searchResults := [sampleResult, sampleResult, sampleResult],
      selectedResultIndex := some 2 } (by decide)).2 2 rfl (by decide)
  simpa using h.1

/-- Claim C9: the history store never holds more than `historySize`
entries; inserting below capacity appends, inserting at capacity evicts
the oldest entry; and with `historySize = 2`, adding "a", "b", "c"
leaves exactly ["b", "c"]. -/
theorem C9_history_capacity :
    (∀ cap (qs : List String),
      (qs.foldl (addPreviousSearch cap) []).length ≤ cap)
    ∧ (∀ cap (h : List String) q, h.length < cap →
        addPreviousSearch cap h q = h ++ [q])
    ∧ (∀ cap (h : List String) q, h.length = cap →
        addPreviousSearch cap h q = (h ++ [q]).drop 1)
    ∧ ["a", "b", "c"].foldl (addPreviousSearch 2) [] = ["b", "c"] := by
  have hstep : ∀ cap (h : List String) q, h.length ≤ cap →
      (addPreviousSearch cap h q).length ≤ cap := by
    intro cap h q hh
    unfold addPreviousSearch
    dsimp only
    split
    · rename_i hlt
      simp only [List.length_drop]
      omega
    · rename_i hge
      simp only [List.length_append, List.length_singleton] at hge ⊢
      omega
  refine ⟨?_, ?_, ?_, ?_⟩
  · intro cap qs
    have : ∀ (qs : List String) (h : List String), h.length ≤ cap →
        (qs.foldl (addPreviousSearch cap) h).length ≤ cap := by
      intro qs
      induction qs with
      | nil => intro h hh; exact hh
      | cons q qs ih =>
          intro h hh
          exact ih (addPreviousSearch cap h q) (hstep cap h q hh)
    exact this qs [] (Nat.zero_le cap)
  · intro cap h q hh
    unfold addPreviousSearch
    dsimp only
    rw [if_neg]
    simp only [List.length_append, List.length_singleton]
    omega
  · intro cap h q hh
    unfold addPreviousSearch
    dsimp only
    rw [if_pos]
    · congr 1
      simp [hh]
    · simp [hh]
  · rfl

/-- Claim C9, witness: a history of two entries at capacity 2 evicts its
oldest entry on the next insertion. -/
theorem C9_witness :
    addPreviousSearch 2 ["x", "y"] "z" = ["y", "z"] := by
  have h := C9_history_capacity.2.2.1 2 ["x", "y"] "z" (by decide)
  simpa using h

/-- Claim C10: omitting the `historySize` prop makes the component pass
capacity 10 to the history store — the destructuring default
`historySize = 10` — and in particular not the 0 stated by the adjacent
prop comment. -/
theorem C10_default_history_size :
    historySizeOrDefault none = 10 ∧ historySizeOrDefault none ≠ 0 :=
  ⟨rfl, by decide⟩

end VectaraSearch
